import Mathlib

/-!
# Verification of the AutoDPD static-analysis engine

A shallow embedding of `src/autodepend/autodpd.py` (class `autodpd`):
the import extractor, the syntax-feature/version detector, the module
classifier, the project-level aggregation (`detect_project_dependencies`,
`get_python_version`) and the environment-spec builder
(`predict_python_environment`, `generate_base_requirements`).

Modelling conventions:
* Python `float` version constants are embedded as naturals scaled by 100.
  A Python float literal `3.10` denotes exactly the same value as `3.1`
  (trailing zeros in the fractional part are meaningless), so the literal
  `3.10` in the source is embedded as `310`, while `3.9` is `390` and the
  `3.5` default is `350`.  Comparison of these floats is exact (each is a
  distinct double), so `Nat` comparison of the scaled values is faithful.
* `ast.parse` is an external component.  A source unit therefore carries
  its parse outcome: `some tree` for a successful parse, `none` when
  `ast.parse` raises `SyntaxError`.  The tree type `Node` covers exactly
  the node shapes the analyzer inspects (`ast.walk` plus `isinstance`
  tests); every other node kind is `Node.other` with its walked children.
* Reading a file with `encoding='utf-8'` can raise `UnicodeDecodeError`,
  and subscripting valid notebook JSON of the wrong shape (a non-object
  top level such as `[]`, a non-iterable `cells`, a non-object cell, a
  non-joinable cell `source`) raises `TypeError`; none of the `except`
  clauses in the source catch either.  Both are distinct content states
  and the analysis functions return `Except.error` for them, mirroring
  the exceptions escaping to the caller.
* The interpreter environment (`sys.stdlib_module_names`,
  `importlib.util.find_spec`, `importlib.metadata.distributions()`) is
  injected as an explicit read-only `Env` record.
* Python `set` values are embedded as lists; deduplication happens where
  the source observes it (`sorted(list(set))` and `max`/emptiness, which
  are insensitive to duplicates and order).
-/

/-! ## String helpers (embedding the Python string primitives used) -/

/-- `name.split('.')[0]`: the prefix of `s` before the first `'.'`. -/
def topLevel (s : String) : String :=
  String.mk (s.data.takeWhile (fun c => c ≠ '.'))

/-- `str.lower()` (ASCII case folding, as used for package names). -/
def lowerStr (s : String) : String :=
  String.mk (s.data.map Char.toLower)

/-- Whether `p` is a prefix of `s` (on character lists). -/
def listPrefixOf : List Char → List Char → Bool
  | [], _ => true
  | _ :: _, [] => false
  | a :: t, b :: u => a == b && listPrefixOf t u

/-- Whether `p` occurs contiguously inside `s` (on character lists). -/
def listContains (p : List Char) : List Char → Bool
  | [] => p.isEmpty
  | a :: t => listPrefixOf p (a :: t) || listContains p t

/-- Python's `p in s` substring test. -/
def substrOf (p s : String) : Bool :=
  listContains p.data s.data

/-- Split a character list at every occurrence of `sep`. -/
def splitChar (sep : Char) : List Char → List (List Char)
  | [] => [[]]
  | a :: t =>
    match splitChar sep t with
    | [] => [[]]
    | h :: r => if a = sep then [] :: h :: r else (a :: h) :: r

/-- `pathlib.Path(s).name`: the final path component.  `pathlib` drops
empty components and `'.'` components and keeps the rest; the name of a
path with no remaining components is `''`. -/
def pathName (s : String) : String :=
  String.mk ((((splitChar '/' s.data).filter
    (fun c => !(c == []) && !(c == ['.'])))).getLastD [])

/-- Lexicographic (code-point) order on strings, Python's `<` on `str`. -/
def strLe (a b : String) : Bool :=
  !(decide (b.data < a.data))

/-- Insert into an ascending list, keeping it ascending. -/
def insertSorted (a : String) : List String → List String
  | [] => [a]
  | b :: t => if strLe a b then a :: b :: t else b :: insertSorted a t

/-- Python's `sorted` on a list of strings (insertion sort; the result is
the unique ascending enumeration once the input is duplicate-free). -/
def sortStrings (l : List String) : List String :=
  l.foldr insertSorted []

/-- `True` when `'='` does not occur in the string.  Top-level module
names extracted from genuine import statements are identifiers and hence
`'='`-free; the `name==version` entries of the third-party partition are
only unambiguous under this assumption. -/
def eqFreeName (s : String) : Bool :=
  s.data.all (fun c => !(c == '='))

/-- The textual form of the recommended-version float as Python's
f-string interpolation prints it (all values produced by the analyzer
are floats with one significant decimal digit: `3.5`, …, `3.9`, and
`3.1` for the literal `3.10`). -/
def verStr (v : Nat) : String :=
  Nat.repr (v / 100) ++ "." ++ Nat.repr (v % 100 / 10)

/-! ## The syntax tree

`ast.walk` visits every node of the tree; the analyzer dispatches on
`isinstance`.  Constructors carry exactly the data the analyzer reads:
dotted names of `ast.Import` aliases, the (possibly absent) module of an
`ast.ImportFrom`, the identifier of an `ast.Name`, the decorator list of
an `ast.ClassDef`, the operator and operands of an `ast.BinOp`.  All
other walked children are kept as child lists. -/

/-- The binary operator of an `ast.BinOp`: `ast.BitOr` or anything else. -/
inductive BOp where
  | bitOr
  | otherOp
deriving DecidableEq

/-- A Python abstract-syntax-tree node, restricted to the shapes the
analyzer distinguishes. -/
inductive Node where
  /-- `ast.Import`, carrying the dotted name of each alias. -/
  | importStmt (names : List String)
  /-- `ast.ImportFrom`; `module` is `none` for a relative import. -/
  | importFrom (module : Option String)
  /-- `ast.Name`. -/
  | name (id : String)
  /-- `ast.AnnAssign`. -/
  | annAssign (children : List Node)
  /-- `ast.JoinedStr` (an f-string). -/
  | joinedStr (children : List Node)
  /-- `ast.ClassDef` with its decorator expressions and walked body. -/
  | classDef (decorators : List Node) (body : List Node)
  /-- `ast.NamedExpr` (a walrus assignment). -/
  | namedExpr (children : List Node)
  /-- `ast.BinOp`. -/
  | binOp (op : BOp) (left : Node) (right : Node)
  /-- `ast.Dict` (a dict display literal). -/
  | dictDisplay (children : List Node)
  /-- `ast.Match` (a structural pattern-matching statement). -/
  | matchStmt (children : List Node)
  /-- Any other node kind, with its walked children. -/
  | other (children : List Node)

/-- Whether a decorator expression is a bare name `dataclass`
(`isinstance(decorator, ast.Name) and decorator.id == 'dataclass'`). -/
def isDataclassDeco : Node → Bool
  | .name i => i == "dataclass"
  | _ => false

/-- Whether an operand is a dict display literal
(`isinstance(node.left, ast.Dict)` / `isinstance(node.right, ast.Dict)`). -/
def isDictNode : Node → Bool
  | .dictDisplay _ => true
  | _ => false

mutual

/-- The import names contributed by walking a node: for `ast.Import`
every alias's dotted path truncated to its first component, for
`ast.ImportFrom` the first component of `node.module` when that is
present and non-empty (`if node.module:`), plus whatever the walked
children contribute. -/
def importsOf : Node → List String
  | .importStmt ns => ns.map topLevel
  | .importFrom m =>
    match m with
    | some s => if s = "" then [] else [topLevel s]
    | none => []
  | .name _ => []
  | .annAssign cs => importsOfL cs
  | .joinedStr cs => importsOfL cs
  | .classDef ds body => importsOfL ds ++ importsOfL body
  | .namedExpr cs => importsOfL cs
  | .binOp _ l r => importsOf l ++ importsOf r
  | .dictDisplay cs => importsOfL cs
  | .matchStmt cs => importsOfL cs
  | .other cs => importsOfL cs

/-- `importsOf` over a list of children. -/
def importsOfL : List Node → List String
  | [] => []
  | n :: t => importsOf n ++ importsOfL t

end

mutual

/-- The version features contributed by walking a node, as scaled
version numbers: `ast.AnnAssign ↦ 350`, `ast.JoinedStr ↦ 360`,
`ast.ClassDef` with a bare `dataclass` decorator `↦ 370`,
`ast.NamedExpr ↦ 380`, `ast.BinOp`/`ast.BitOr` with a dict-display
operand `↦ 390`, and `ast.Match ↦ 310` (the Python float literal `3.10`
is the number 3.1; `hasattr(ast, 'Match')` holds on the runtimes
modelled here). -/
def featuresOf : Node → List Nat
  | .importStmt _ => []
  | .importFrom _ => []
  | .name _ => []
  | .annAssign cs => 350 :: featuresOfL cs
  | .joinedStr cs => 360 :: featuresOfL cs
  | .classDef ds body =>
    (if ds.any isDataclassDeco then [370] else []) ++
      (featuresOfL ds ++ featuresOfL body)
  | .namedExpr cs => 380 :: featuresOfL cs
  | .binOp op l r =>
    (if op = .bitOr && (isDictNode l || isDictNode r) then [390] else []) ++
      (featuresOf l ++ featuresOf r)
  | .dictDisplay cs => featuresOfL cs
  | .matchStmt cs => 310 :: featuresOfL cs
  | .other cs => featuresOfL cs

/-- `featuresOf` over a list of children. -/
def featuresOfL : List Node → List Nat
  | [] => []
  | n :: t => featuresOf n ++ featuresOfL t

end

/-! ## Source units

A unit is a file the directory walk yields.  `rglob` dispatches on the
suffix: `.py` files go to `analyze_imports` / `analyze_python_version`,
`.ipynb` files to the notebook variants, anything else is skipped. -/

/-- The observable content of a `.py` file: either its text decoded and
was handed to `ast.parse` (with `none` recording a `SyntaxError`), or
reading it raised `UnicodeDecodeError`. -/
inductive PyContent where
  | decoded (tree : Option Node)
  | undecodable

/-- The observable content of an `.ipynb` file, following the stages of
the notebook analyzers: reading the file at all can raise
`UnicodeDecodeError`; `json.load` can raise `JSONDecodeError`; the
subscript accesses `notebook['cells']`, `cell['cell_type']`,
`cell['source']` raise `KeyError` when the JSON is an object missing
that key, but raise `TypeError` when the JSON is valid yet of the wrong
shape — a non-object top level (e.g. `[]`), a non-iterable or
non-object `cells` value, a non-object cell, or a cell `source` that is
neither a string nor joinable (the code-cell combination step
`''.join(source)` also raises `TypeError` then); otherwise the code
cells are combined and parsed (`none` recording a `SyntaxError`). -/
inductive NbContent where
  | undecodable
  | invalidJson
  | missingKey
  | wrongShape
  | cellsParsed (tree : Option Node)

/-- One entry of the directory walk. -/
inductive SrcFile where
  | py (c : PyContent)
  | ipynb (c : NbContent)
  | otherFile

/-- The exceptions that escape the per-unit analyzers: the handlers
catch only `SyntaxError`, `JSONDecodeError` and `KeyError`, so
`UnicodeDecodeError` (undecodable bytes) and `TypeError` (valid JSON of
the wrong shape) propagate. -/
inductive AnalysisError where
  | unicodeDecode
  | typeError
deriving DecidableEq

/-- `autodpd.analyze_imports`: parse the file and collect the top-level
component of every import target.  `SyntaxError` is caught (empty set,
warning printed); `UnicodeDecodeError` from `file.read()` is not. -/
def analyze_imports : PyContent → Except AnalysisError (List String)
  | .undecodable => .error .unicodeDecode
  | .decoded none => .ok []
  | .decoded (some t) => .ok (importsOf t).dedup

/-- `autodpd.analyze_notebook_imports`: load the notebook, combine the
code cells, and extract imports.  `JSONDecodeError` and `KeyError` are
caught by the outer handler and `SyntaxError` by the inner one (empty
set, warning printed); `UnicodeDecodeError` and `TypeError` are not
caught. -/
def analyze_notebook_imports : NbContent → Except AnalysisError (List String)
  | .undecodable => .error .unicodeDecode
  | .invalidJson => .ok []
  | .missingKey => .ok []
  | .wrongShape => .error .typeError
  | .cellsParsed none => .ok []
  | .cellsParsed (some t) => .ok (importsOf t).dedup

/-- `autodpd.analyze_python_version`: parse the file and collect the
version features.  `SyntaxError` is caught (empty set);
`UnicodeDecodeError` is not. -/
def analyze_python_version : PyContent → Except AnalysisError (List Nat)
  | .undecodable => .error .unicodeDecode
  | .decoded none => .ok []
  | .decoded (some t) => .ok (featuresOf t).dedup

/-- `autodpd.analyze_python_version_notebook`: the notebook variant;
its single handler catches `JSONDecodeError`, `KeyError` and
`SyntaxError` together; `UnicodeDecodeError` and `TypeError` are not
caught. -/
def analyze_python_version_notebook : NbContent → Except AnalysisError (List Nat)
  | .undecodable => .error .unicodeDecode
  | .invalidJson => .ok []
  | .missingKey => .ok []
  | .wrongShape => .error .typeError
  | .cellsParsed none => .ok []
  | .cellsParsed (some t) => .ok (featuresOf t).dedup

/-- The suffix dispatch of `detect_project_dependencies`: `.py` files go
to `analyze_imports`, `.ipynb` files to `analyze_notebook_imports`,
everything else is skipped (`continue`). -/
def unitImports : SrcFile → Except AnalysisError (List String)
  | .py c => analyze_imports c
  | .ipynb c => analyze_notebook_imports c
  | .otherFile => .ok []

/-- The suffix dispatch of `get_python_version`. -/
def unitVersions : SrcFile → Except AnalysisError (List Nat)
  | .py c => analyze_python_version c
  | .ipynb c => analyze_python_version_notebook c
  | .otherFile => .ok []

/-- The import names a unit contributes when the run reaches past it
(used to state the aggregate claims): the extracted list, or `[]` for a
unit whose analysis raises. -/
def unitImportList (f : SrcFile) : List String :=
  match unitImports f with
  | .ok l => l
  | .error _ => []

/-- Every top-level import name found in any unit of the project. -/
def projectImportNames : List SrcFile → List String
  | [] => []
  | f :: t => unitImportList f ++ projectImportNames t

/-! ## The interpreter environment

`sys.stdlib_module_names`, `importlib.util.find_spec` and
`importlib.metadata.distributions()` are read-only process-wide state,
injected as an explicit record. -/

/-- The reference sets the classifier consults.  `findSpec m = none`
models `find_spec` returning `None`; `findSpec m = some o` models a
found spec whose `origin` attribute is `o` (itself optional, as
`spec.origin` can be `None`).  `distributions` lists
`(metadata['Name'], version)` for every installed distribution. -/
structure Env where
  stdlibNames : List String
  findSpec : String → Option (Option String)
  distributions : List (String × String)

/-- The dict comprehension of `detect_project_dependencies`:
`{dist.metadata['Name'].lower(): dist.version for dist in distributions()}`. -/
def installedPackages (env : Env) : List (String × String) :=
  env.distributions.map (fun d => (lowerStr d.1, d.2))

/-- Lookup in a dict built by successive insertion: the last binding of
a key wins, as in the Python dict comprehension. -/
def dictLookup (l : List (String × String)) (k : String) : Option String :=
  (l.reverse.find? (fun p => p.1 == k)).map (fun p => p.2)

/-- The location-marker test of `is_standard_library`:
`'site-packages' in location or 'dist-packages' in location`
(the source returns the conjunction of the negations). -/
def hasMarker (location : String) : Bool :=
  substrOf "site-packages" location || substrOf "dist-packages" location

/-- `autodpd.is_standard_library`: a name in
`sys.stdlib_module_names` is standard-library; otherwise a name whose
spec cannot be found is not; otherwise the module is standard-library
exactly when its resolved location (`spec.origin`, `''` when absent)
contains neither third-party marker. -/
def is_standard_library (env : Env) (m : String) : Bool :=
  if env.stdlibNames.contains m then true
  else
    match env.findSpec m with
    | none => false
    | some origin => !hasMarker (origin.getD "")

/-- The three partitions of the dependency report, in the key order of
the returned dict. -/
structure DependencyReport where
  third_party : List String
  standard_lib : List String
  unknown : List String
deriving DecidableEq

/-- One iteration of the classification loop of
`detect_project_dependencies`: standard-library names keep their name;
a non-standard name whose lowercase form is a key of the installed
registry is recorded as `name==version`; anything else is unknown. -/
def classifyInto (env : Env) (acc : DependencyReport) (m : String) :
    DependencyReport :=
  if is_standard_library env m then
    { acc with standard_lib := m :: acc.standard_lib }
  else
    match dictLookup (installedPackages env) (lowerStr m) with
    | some ver => { acc with third_party := (m ++ "==" ++ ver) :: acc.third_party }
    | none => { acc with unknown := m :: acc.unknown }

/-- Classify a batch of import names into the accumulating report. -/
def classifyAll (env : Env) (names : List String) (acc : DependencyReport) :
    DependencyReport :=
  names.foldl (classifyInto env) acc

/-- The file loop of `detect_project_dependencies`: analyze each unit in
walk order and classify its imports; an exception escaping a unit's
analysis aborts the loop. -/
def gatherImports (env : Env) :
    List SrcFile → DependencyReport → Except AnalysisError DependencyReport
  | [], acc => .ok acc
  | f :: t, acc =>
    match unitImports f with
    | .error e => .error e
    | .ok imports => gatherImports env t (classifyAll env imports acc)

/-- `autodpd.detect_project_dependencies`: run the classification loop
over all units and return each partition as `sorted(list(set))`. -/
def detect_project_dependencies (env : Env) (files : List SrcFile) :
    Except AnalysisError DependencyReport :=
  match gatherImports env files ⟨[], [], []⟩ with
  | .error e => .error e
  | .ok acc =>
    .ok ⟨sortStrings acc.third_party.dedup,
         sortStrings acc.standard_lib.dedup,
         sortStrings acc.unknown.dedup⟩

/-- The file loop of `get_python_version`, accumulating the union of the
per-unit feature sets. -/
def gatherVersions :
    List SrcFile → List Nat → Except AnalysisError (List Nat)
  | [], acc => .ok acc
  | f :: t, acc =>
    match unitVersions f with
    | .error e => .error e
    | .ok vs => gatherVersions t (acc ++ vs)

/-- `max` over the accumulated feature values (all features are
positive, so folding from `0` computes the maximum of a non-empty
collection). -/
def maxList (l : List Nat) : Nat :=
  l.foldl Nat.max 0

/-- `autodpd.get_python_version`: `3.5` (scaled: `350`) when no feature
was detected anywhere, otherwise the numeric maximum of the detected
feature values. -/
def get_python_version (files : List SrcFile) : Except AnalysisError Nat :=
  match gatherVersions files [] with
  | .error e => .error e
  | .ok vs => .ok (if vs.isEmpty then 350 else maxList vs)

/-! ## The environment-spec builder -/

/-- The reasoning line appended when `python_version >= 3.10`. -/
def matchReason : String := "Match statements detected (Python 3.10+)"

/-- The reasoning line appended when `python_version >= 3.9`. -/
def dictUnionReason : String := "Dictionary union operators detected (Python 3.9+)"

/-- The reasoning line appended when `python_version >= 3.8`. -/
def walrusReason : String := "Walrus operator detected (Python 3.8+)"

/-- The reasoning line appended when `python_version >= 3.7`. -/
def dataclassReason : String := "Dataclasses detected (Python 3.7+)"

/-- The reasoning line appended when `python_version >= 3.6`. -/
def fstringReason : String := "F-strings detected (Python 3.6+)"

/-- The reasoning line appended when `python_version >= 3.5`. -/
def typeHintReason : String := "Type hints detected (Python 3.5+)"

/-- The threshold checks of `predict_python_environment` in the order
the source performs them, paired with the numeric value each float
literal denotes (`3.10` is 3.1, scaled: `310`). -/
def reasonTable : List (Nat × String) :=
  [(310, matchReason), (390, dictUnionReason), (380, walrusReason),
   (370, dataclassReason), (360, fstringReason), (350, typeHintReason)]

/-- The `python_version_reasoning` list built by the six sequential
`if python_version >= …: append(…)` statements of
`predict_python_environment`. -/
def pythonVersionReasoning (v : Nat) : List String :=
  (if 310 ≤ v then [matchReason] else []) ++
    ((if 390 ≤ v then [dictUnionReason] else []) ++
      ((if 380 ≤ v then [walrusReason] else []) ++
        ((if 370 ≤ v then [dataclassReason] else []) ++
          ((if 360 ≤ v then [fstringReason] else []) ++
            (if 350 ≤ v then [typeHintReason] else [])))))

/-- One entry of the conda `dependencies` list: a plain string pin or
the nested `{'pip': [...]}` structure. -/
inductive CondaDep where
  | str (s : String)
  | pipList (pkgs : List String)
deriving DecidableEq

/-- The `conda_environment_yaml` skeleton. -/
structure CondaEnvYaml where
  name : String
  channels : List String
  dependencies : List CondaDep
deriving DecidableEq

/-- The record returned by `predict_python_environment`.
`base_requirements = none` models the key being absent from the dict;
`some r` models `environment['base_requirements'] = r`, where `r` is
the (optional) value `generate_base_requirements` returned. -/
structure EnvironmentSpec where
  recommended_python_version : Nat
  python_version_reasoning : List String
  dependencies : DependencyReport
  conda_environment_yaml : CondaEnvYaml
  base_requirements : Option (Option (List String))
deriving DecidableEq

/-- A project: the directory argument and the units its recursive walk
yields. -/
structure Project where
  dir : String
  files : List SrcFile

/-- `autodpd.generate_base_requirements`: the body runs
`get_python_version` and `detect_project_dependencies` (so their
exceptions propagate) and then ends at a comment — it falls off the end
and returns `None`, writing nothing. -/
def generate_base_requirements (env : Env) (p : Project) :
    Except AnalysisError (Option (List String)) :=
  match get_python_version p.files with
  | .error e => .error e
  | .ok _python_version =>
    match detect_project_dependencies env p.files with
    | .error e => .error e
    | .ok _deps => .ok none

/-- `autodpd.predict_python_environment`: analyze the project, build the
environment record with the conda skeleton, append the reasoning lines,
and (when requested) store the result of `generate_base_requirements`
under `base_requirements`. -/
def predict_python_environment (env : Env) (p : Project)
    (generate_base_reqs : Bool) : Except AnalysisError EnvironmentSpec :=
  match get_python_version p.files with
  | .error e => .error e
  | .ok python_version =>
    match detect_project_dependencies env p.files with
    | .error e => .error e
    | .ok deps =>
      match (if generate_base_reqs then
          (generate_base_requirements env p).map some
        else .ok none) with
      | .error e => .error e
      | .ok base =>
        .ok { recommended_python_version := python_version
              python_version_reasoning := pythonVersionReasoning python_version
              dependencies := deps
              conda_environment_yaml :=
                ⟨pathName p.dir, ["defaults", "conda-forge"],
                 [.str ("python>=" ++ verStr python_version), .str "pip",
                  .pipList deps.third_party]⟩
              base_requirements := base }

deriving instance DecidableEq for Except

/-! ## Concrete instances used by the claim theorems -/

/-- A minimal interpreter environment: a few standard modules, no
resolvable third-party locations, nothing installed. -/
def env0 : Env := ⟨["os", "json", "sys"], fun _ => none, []⟩

/-- A `.py` unit containing only a `match` statement. -/
def fileMatch : SrcFile := .py (.decoded (some (.matchStmt [])))

/-- A `.py` unit containing a `dict-literal | name` expression and a
`match` statement. -/
def fileDictOrMatch : SrcFile :=
  .py (.decoded (some (.other
    [.binOp .bitOr (.dictDisplay []) (.name "d"), .matchStmt []])))

/-- A `.py` unit containing only an f-string. -/
def fileFstring : SrcFile := .py (.decoded (some (.joinedStr [])))

example : importsOf (.other [.importStmt ["numpy.linalg", "os"],
    .importFrom (some "custom.pkg")]) = ["numpy", "os", "custom"] := by decide

example : get_python_version [fileDictOrMatch] = .ok 390 := by decide
example : get_python_version [fileMatch] = .ok 310 := by decide
example : get_python_version [] = .ok 350 := by decide
example : detect_project_dependencies env0 [.py .undecodable] =
    .error .unicodeDecode := by decide
example : (predict_python_environment env0 ⟨"home/demo", [fileFstring]⟩ true).map
    (fun s => s.python_version_reasoning) =
    .ok [matchReason, fstringReason, typeHintReason] := by decide
example : (predict_python_environment env0 ⟨"home/demo", [fileMatch]⟩ true).map
    (fun s => s.conda_environment_yaml.dependencies) =
    .ok [.str "python>=3.1", .str "pip", .pipList []] := by decide

example : featuresOf (.other [.binOp .bitOr (.dictDisplay []) (.name "d"),
    .matchStmt []]) = [390, 310] := by decide

example : pathName "home/demo/" = "demo" := by decide
example : pathName "." = "" := by decide
example : verStr 310 = "3.1" := by decide
example : sortStrings ["b", "a", "c"] = ["a", "b", "c"] := by decide

/-- The per-unit failure states the source recovers from locally: a
script whose text parses with a `SyntaxError`, a notebook that is not
valid JSON, a notebook missing a required key, and a notebook whose
combined code cells fail to parse.  (An undecodable unit and a
wrong-shape notebook are *not* in this set: neither
`UnicodeDecodeError` nor `TypeError` is caught anywhere.) -/
def recoverable : SrcFile → Bool
  | .py (.decoded none) => true
  | .ipynb .invalidJson => true
  | .ipynb .missingKey => true
  | .ipynb (.cellsParsed none) => true
  | _ => false

/-- A project holding only the f-string unit. -/
def projC3 : Project := ⟨"home/demo", [fileFstring]⟩

/-- A project holding only the match-statement unit. -/
def projC9 : Project := ⟨"home/demo", [fileMatch]⟩

/-- A project with no units at all. -/
def pEmpty : Project := ⟨"proj", []⟩

/-- The environment spec the builder produces for `projC3` (recommended
version 3.6): note the match-statement line leading the reasoning,
because `3.6 >= 3.10` holds numerically (`3.10` being 3.1). -/
def spec3 : EnvironmentSpec :=
  ⟨360, [matchReason, fstringReason, typeHintReason], ⟨[], [], []⟩,
   ⟨"demo", ["defaults", "conda-forge"],
    [.str "python>=3.6", .str "pip", .pipList []]⟩, some none⟩

/-- The environment spec the builder produces for `projC9` (recommended
version 3.1, printed `python>=3.1`). -/
def spec9 : EnvironmentSpec :=
  ⟨310, [matchReason], ⟨[], [], []⟩,
   ⟨"demo", ["defaults", "conda-forge"],
    [.str "python>=3.1", .str "pip", .pipList []]⟩, some none⟩

/-- The environment spec the builder produces for `pEmpty` (recommended
version 3.5; the match line appears because `3.5 >= 3.1`). -/
def specEmpty : EnvironmentSpec :=
  ⟨350, [matchReason, typeHintReason], ⟨[], [], []⟩,
   ⟨"proj", ["defaults", "conda-forge"],
    [.str "python>=3.5", .str "pip", .pipList []]⟩, some none⟩

/-- An environment where nothing resolves but `numpy` is recorded as
installed: `find_spec` fails for every name. -/
def envC2a : Env := ⟨[], fun _ => none, [("numpy", "1.26.0")]⟩

/-- A project importing only `numpy`. -/
def filesC2a : List SrcFile := [.py (.decoded (some (.importStmt ["numpy"])))]

/-- An environment where every name resolves to a `site-packages`
location but no distribution is installed. -/
def envC2b : Env :=
  ⟨[], fun _ => some (some "/usr/lib/python3.11/site-packages/mypkg/x.py"),
   []⟩

/-- A project importing only `mypkg`. -/
def filesC2b : List SrcFile := [.py (.decoded (some (.importStmt ["mypkg"])))]

/-- An environment with one standard module, one resolvable third-party
module (`numpy`, installed under the differently-cased distribution
name `Numpy`), and nothing else. -/
def envW : Env :=
  ⟨["os"],
   fun m => if m == "numpy"
     then some (some "/opt/venv/lib/site-packages/numpy/x.py") else none,
   [("Numpy", "2.0.1")]⟩

/-- A project importing `os`, `numpy.linalg` and `customlib.sub`. -/
def filesW : List SrcFile :=
  [.py (.decoded (some (.other
    [.importStmt ["os", "numpy.linalg"], .importFrom (some "customlib.sub")])))]

/-- The dependency report `detect_project_dependencies envW filesW`
produces. -/
def repW : DependencyReport := ⟨["numpy==2.0.1"], ["os"], ["customlib"]⟩

/-! ## Helper lemmas -/

theorem mem_insertSorted {a b : String} {l : List String} :
    a ∈ insertSorted b l ↔ a = b ∨ a ∈ l := by
  induction l with
  | nil => simp [insertSorted]
  | cons c t ih =>
    unfold insertSorted
    by_cases h : strLe b c = true
    · simp [h]
    · simp only [h]
      simp [ih]
      tauto

theorem mem_sortStrings {a : String} {l : List String} :
    a ∈ sortStrings l ↔ a ∈ l := by
  induction l with
  | nil => simp [sortStrings]
  | cons b t ih =>
    have hstep : sortStrings (b :: t) = insertSorted b (sortStrings t) := rfl
    rw [hstep, mem_insertSorted, ih]
    simp

theorem classifyInto_standard_lib (env : Env) (acc : DependencyReport)
    (m : String) :
    (classifyInto env acc m).standard_lib =
      if is_standard_library env m then m :: acc.standard_lib
      else acc.standard_lib := by
  by_cases h : is_standard_library env m
  · simp [classifyInto, h]
  · simp only [classifyInto, h, if_false, Bool.false_eq_true]
    cases hd : dictLookup (installedPackages env) (lowerStr m) <;> simp [hd]

theorem classifyInto_unknown (env : Env) (acc : DependencyReport)
    (m : String) :
    (classifyInto env acc m).unknown =
      if is_standard_library env m = false ∧
          dictLookup (installedPackages env) (lowerStr m) = none
        then m :: acc.unknown else acc.unknown := by
  by_cases h : is_standard_library env m
  · simp [classifyInto, h]
  · simp only [classifyInto, h, if_false, Bool.false_eq_true]
    cases hd : dictLookup (installedPackages env) (lowerStr m) <;>
      simp [hd, Bool.eq_false_iff, h]

theorem classifyInto_third_party (env : Env) (acc : DependencyReport)
    (m : String) :
    (classifyInto env acc m).third_party =
      if is_standard_library env m then acc.third_party
      else
        match dictLookup (installedPackages env) (lowerStr m) with
        | some ver => (m ++ "==" ++ ver) :: acc.third_party
        | none => acc.third_party := by
  by_cases h : is_standard_library env m
  · simp [classifyInto, h]
  · simp only [classifyInto, h, if_false, Bool.false_eq_true]
    cases hd : dictLookup (installedPackages env) (lowerStr m) <;> simp [hd]

theorem mem_classifyAll_std (env : Env) (names : List String)
    (acc : DependencyReport) (a : String) :
    a ∈ (classifyAll env names acc).standard_lib ↔
      (a ∈ names ∧ is_standard_library env a = true) ∨
        a ∈ acc.standard_lib := by
  induction names generalizing acc with
  | nil => simp [classifyAll]
  | cons n t ih =>
    have hstep : classifyAll env (n :: t) acc =
        classifyAll env t (classifyInto env acc n) := rfl
    rw [hstep, ih, classifyInto_standard_lib]
    by_cases h : is_standard_library env n
    · rw [if_pos h]
      simp only [List.mem_cons]
      constructor
      · rintro (⟨ht, hs⟩ | rfl | hacc)
        · exact Or.inl ⟨Or.inr ht, hs⟩
        · exact Or.inl ⟨Or.inl rfl, h⟩
        · exact Or.inr hacc
      · rintro (⟨rfl | ht, hs⟩ | hacc)
        · exact Or.inr (Or.inl rfl)
        · exact Or.inl ⟨ht, hs⟩
        · exact Or.inr (Or.inr hacc)
    · rw [if_neg h]
      simp only [List.mem_cons]
      constructor
      · rintro (⟨ht, hs⟩ | hacc)
        · exact Or.inl ⟨Or.inr ht, hs⟩
        · exact Or.inr hacc
      · rintro (⟨rfl | ht, hs⟩ | hacc)
        · exact absurd hs h
        · exact Or.inl ⟨ht, hs⟩
        · exact Or.inr hacc

theorem mem_classifyAll_unknown (env : Env) (names : List String)
    (acc : DependencyReport) (a : String) :
    a ∈ (classifyAll env names acc).unknown ↔
      (a ∈ names ∧ is_standard_library env a = false ∧
        dictLookup (installedPackages env) (lowerStr a) = none) ∨
        a ∈ acc.unknown := by
  induction names generalizing acc with
  | nil => simp [classifyAll]
  | cons n t ih =>
    have hstep : classifyAll env (n :: t) acc =
        classifyAll env t (classifyInto env acc n) := rfl
    rw [hstep, ih, classifyInto_unknown]
    by_cases h : is_standard_library env n = false ∧
        dictLookup (installedPackages env) (lowerStr n) = none
    · rw [if_pos h]
      simp only [List.mem_cons]
      constructor
      · rintro (⟨ht, hs⟩ | rfl | hacc)
        · exact Or.inl ⟨Or.inr ht, hs⟩
        · exact Or.inl ⟨Or.inl rfl, h⟩
        · exact Or.inr hacc
      · rintro (⟨rfl | ht, hs⟩ | hacc)
        · exact Or.inr (Or.inl rfl)
        · exact Or.inl ⟨ht, hs⟩
        · exact Or.inr (Or.inr hacc)
    · rw [if_neg h]
      simp only [List.mem_cons]
      constructor
      · rintro (⟨ht, hs⟩ | hacc)
        · exact Or.inl ⟨Or.inr ht, hs⟩
        · exact Or.inr hacc
      · rintro (⟨rfl | ht, hs⟩ | hacc)
        · exact absurd hs h
        · exact Or.inl ⟨ht, hs⟩
        · exact Or.inr hacc

theorem mem_classifyAll_third (env : Env) (names : List String)
    (acc : DependencyReport) (s : String) :
    s ∈ (classifyAll env names acc).third_party ↔
      (∃ m v, m ∈ names ∧ is_standard_library env m = false ∧
        dictLookup (installedPackages env) (lowerStr m) = some v ∧
        s = m ++ "==" ++ v) ∨ s ∈ acc.third_party := by
  induction names generalizing acc with
  | nil => simp [classifyAll]
  | cons n t ih =>
    have hstep : classifyAll env (n :: t) acc =
        classifyAll env t (classifyInto env acc n) := rfl
    rw [hstep, ih, classifyInto_third_party]
    by_cases h : is_standard_library env n
    · rw [if_pos h]
      constructor
      · rintro (⟨m, v, hm, hstd, hlk, rfl⟩ | hacc)
        · exact Or.inl ⟨m, v, List.mem_cons_of_mem n hm, hstd, hlk, rfl⟩
        · exact Or.inr hacc
      · rintro (⟨m, v, hm, hstd, hlk, rfl⟩ | hacc)
        · rcases List.mem_cons.mp hm with rfl | hmt
          · rw [hstd] at h
            exact absurd h (by simp)
          · exact Or.inl ⟨m, v, hmt, hstd, hlk, rfl⟩
        · exact Or.inr hacc
    · rw [if_neg h]
      cases hd : dictLookup (installedPackages env) (lowerStr n) with
      | none =>
        simp only [hd]
        constructor
        · rintro (⟨m, v, hm, hstd, hlk, rfl⟩ | hacc)
          · exact Or.inl ⟨m, v, List.mem_cons_of_mem n hm, hstd, hlk, rfl⟩
          · exact Or.inr hacc
        · rintro (⟨m, v, hm, hstd, hlk, rfl⟩ | hacc)
          · rcases List.mem_cons.mp hm with rfl | hmt
            · rw [hd] at hlk
              cases hlk
            · exact Or.inl ⟨m, v, hmt, hstd, hlk, rfl⟩
          · exact Or.inr hacc
      | some v0 =>
        simp only [hd, List.mem_cons]
        constructor
        · rintro (⟨m, v, hm, hstd, hlk, rfl⟩ | rfl | hacc)
          · exact Or.inl ⟨m, v, Or.inr hm, hstd, hlk, rfl⟩
          · exact Or.inl ⟨n, v0, Or.inl rfl,
              Bool.eq_false_iff.mpr h, hd, rfl⟩
          · exact Or.inr hacc
        · rintro (⟨m, v, hm, hstd, hlk, rfl⟩ | hacc)
          · rcases hm with rfl | hmt
            · rw [hd] at hlk
              injection hlk with hv
              subst hv
              exact Or.inr (Or.inl rfl)
            · exact Or.inl ⟨m, v, hmt, hstd, hlk, rfl⟩
          · exact Or.inr (Or.inr hacc)

theorem gatherImports_cons (env : Env) (f : SrcFile) (t : List SrcFile)
    (acc : DependencyReport) :
    gatherImports env (f :: t) acc =
      match unitImports f with
      | .error e => .error e
      | .ok l => gatherImports env t (classifyAll env l acc) := rfl

theorem gatherVersions_cons (f : SrcFile) (t : List SrcFile)
    (acc : List Nat) :
    gatherVersions (f :: t) acc =
      match unitVersions f with
      | .error e => .error e
      | .ok vs => gatherVersions t (acc ++ vs) := rfl

theorem gatherImports_ok_eq (env : Env) (files : List SrcFile) :
    ∀ (acc r : DependencyReport), gatherImports env files acc = .ok r →
      r = classifyAll env (projectImportNames files) acc := by
  induction files with
  | nil =>
    intro acc r h
    simp only [gatherImports] at h
    injection h with h
    simp [projectImportNames, classifyAll, h]
  | cons f t ih =>
    intro acc r h
    rw [gatherImports_cons] at h
    cases hu : unitImports f with
    | error e => rw [hu] at h; cases h
    | ok l =>
      rw [hu] at h
      have hr := ih _ _ h
      have hl : unitImportList f = l := by
        unfold unitImportList
        rw [hu]
      have hnames : projectImportNames (f :: t) =
          l ++ projectImportNames t := by
        rw [show projectImportNames (f :: t) =
          unitImportList f ++ projectImportNames t from rfl, hl]
      rw [hr, hnames]
      unfold classifyAll
      rw [List.foldl_append]

theorem detect_ok_elim (env : Env) (files : List SrcFile)
    (rep : DependencyReport)
    (h : detect_project_dependencies env files = .ok rep) :
    rep = ⟨sortStrings (classifyAll env (projectImportNames files)
             ⟨[], [], []⟩).third_party.dedup,
           sortStrings (classifyAll env (projectImportNames files)
             ⟨[], [], []⟩).standard_lib.dedup,
           sortStrings (classifyAll env (projectImportNames files)
             ⟨[], [], []⟩).unknown.dedup⟩ := by
  unfold detect_project_dependencies at h
  cases hg : gatherImports env files ⟨[], [], []⟩ with
  | error e => rw [hg] at h; cases h
  | ok acc =>
    rw [hg] at h
    injection h with h
    rw [← h, gatherImports_ok_eq env files _ _ hg]

theorem mem_detect_std (env : Env) (files : List SrcFile)
    (rep : DependencyReport)
    (h : detect_project_dependencies env files = .ok rep) (a : String) :
    a ∈ rep.standard_lib ↔
      a ∈ projectImportNames files ∧ is_standard_library env a = true := by
  rw [detect_ok_elim env files rep h]
  show a ∈ sortStrings _ ↔ _
  rw [mem_sortStrings, List.mem_dedup, mem_classifyAll_std]
  simp

theorem mem_detect_unknown (env : Env) (files : List SrcFile)
    (rep : DependencyReport)
    (h : detect_project_dependencies env files = .ok rep) (a : String) :
    a ∈ rep.unknown ↔
      a ∈ projectImportNames files ∧ is_standard_library env a = false ∧
        dictLookup (installedPackages env) (lowerStr a) = none := by
  rw [detect_ok_elim env files rep h]
  show a ∈ sortStrings _ ↔ _
  rw [mem_sortStrings, List.mem_dedup, mem_classifyAll_unknown]
  simp

theorem mem_detect_third (env : Env) (files : List SrcFile)
    (rep : DependencyReport)
    (h : detect_project_dependencies env files = .ok rep) (s : String) :
    s ∈ rep.third_party ↔
      ∃ m v, m ∈ projectImportNames files ∧
        is_standard_library env m = false ∧
        dictLookup (installedPackages env) (lowerStr m) = some v ∧
        s = m ++ "==" ++ v := by
  rw [detect_ok_elim env files rep h]
  show s ∈ sortStrings _ ↔ _
  rw [mem_sortStrings, List.mem_dedup, mem_classifyAll_third]
  simp

theorem gatherImports_skip (env : Env) (u : SrcFile)
    (hu : unitImports u = .ok []) (l1 l2 : List SrcFile) :
    ∀ acc, gatherImports env (l1 ++ u :: l2) acc =
      gatherImports env (l1 ++ l2) acc := by
  induction l1 with
  | nil =>
    intro acc
    show gatherImports env (u :: l2) acc = gatherImports env l2 acc
    rw [gatherImports_cons, hu]
    rfl
  | cons f t ih =>
    intro acc
    show gatherImports env (f :: (t ++ u :: l2)) acc =
      gatherImports env (f :: (t ++ l2)) acc
    rw [gatherImports_cons env f (t ++ u :: l2) acc,
      gatherImports_cons env f (t ++ l2) acc]
    cases hf : unitImports f with
    | error e => rfl
    | ok l => exact ih _

theorem detect_skip (env : Env) (u : SrcFile)
    (hu : unitImports u = .ok []) (l1 l2 : List SrcFile) :
    detect_project_dependencies env (l1 ++ u :: l2) =
      detect_project_dependencies env (l1 ++ l2) := by
  unfold detect_project_dependencies
  rw [gatherImports_skip env u hu l1 l2]

theorem gatherVersions_skip (u : SrcFile)
    (hu : unitVersions u = .ok []) (l1 l2 : List SrcFile) :
    ∀ acc, gatherVersions (l1 ++ u :: l2) acc =
      gatherVersions (l1 ++ l2) acc := by
  induction l1 with
  | nil =>
    intro acc
    show gatherVersions (u :: l2) acc = gatherVersions l2 acc
    rw [gatherVersions_cons, hu]
    show gatherVersions l2 (acc ++ []) = gatherVersions l2 acc
    rw [List.append_nil]
  | cons f t ih =>
    intro acc
    show gatherVersions (f :: (t ++ u :: l2)) acc =
      gatherVersions (f :: (t ++ l2)) acc
    rw [gatherVersions_cons f (t ++ u :: l2) acc,
      gatherVersions_cons f (t ++ l2) acc]
    cases hf : unitVersions f with
    | error e => rfl
    | ok l => exact ih _

theorem get_python_version_skip (u : SrcFile)
    (hu : unitVersions u = .ok []) (l1 l2 : List SrcFile) :
    get_python_version (l1 ++ u :: l2) = get_python_version (l1 ++ l2) := by
  unfold get_python_version
  rw [gatherVersions_skip u hu l1 l2]

theorem mem_ite_singleton {c : Prop} [Decidable c] {a x : String} :
    a ∈ (if c then [x] else []) ↔ c ∧ a = x := by
  split <;> simp [*]

theorem mem_pythonVersionReasoning (v t : Nat) (line : String)
    (ht : (t, line) ∈ reasonTable) :
    line ∈ pythonVersionReasoning v ↔ t ≤ v := by
  simp only [reasonTable, List.mem_cons, List.not_mem_nil, or_false,
    Prod.mk.injEq] at ht
  rcases ht with ⟨rfl, rfl⟩ | ⟨rfl, rfl⟩ | ⟨rfl, rfl⟩ | ⟨rfl, rfl⟩ |
    ⟨rfl, rfl⟩ | ⟨rfl, rfl⟩
  all_goals
    unfold pythonVersionReasoning
    simp only [List.mem_append, mem_ite_singleton]
    constructor
  · rintro (⟨h1, h2⟩ | ⟨h1, h2⟩ | ⟨h1, h2⟩ | ⟨h1, h2⟩ | ⟨h1, h2⟩ | ⟨h1, h2⟩) <;>
      first
        | exact h1
        | exact absurd h2 (by decide)
  · intro h1
    exact Or.inl ⟨h1, trivial⟩
  · rintro (⟨h1, h2⟩ | ⟨h1, h2⟩ | ⟨h1, h2⟩ | ⟨h1, h2⟩ | ⟨h1, h2⟩ | ⟨h1, h2⟩) <;>
      first
        | exact h1
        | exact absurd h2 (by decide)
  · intro h1
    exact Or.inr (Or.inl ⟨h1, trivial⟩)
  · rintro (⟨h1, h2⟩ | ⟨h1, h2⟩ | ⟨h1, h2⟩ | ⟨h1, h2⟩ | ⟨h1, h2⟩ | ⟨h1, h2⟩) <;>
      first
        | exact h1
        | exact absurd h2 (by decide)
  · intro h1
    exact Or.inr (Or.inr (Or.inl ⟨h1, trivial⟩))
  · rintro (⟨h1, h2⟩ | ⟨h1, h2⟩ | ⟨h1, h2⟩ | ⟨h1, h2⟩ | ⟨h1, h2⟩ | ⟨h1, h2⟩) <;>
      first
        | exact h1
        | exact absurd h2 (by decide)
  · intro h1
    exact Or.inr (Or.inr (Or.inr (Or.inl ⟨h1, trivial⟩)))
  · rintro (⟨h1, h2⟩ | ⟨h1, h2⟩ | ⟨h1, h2⟩ | ⟨h1, h2⟩ | ⟨h1, h2⟩ | ⟨h1, h2⟩) <;>
      first
        | exact h1
        | exact absurd h2 (by decide)
  · intro h1
    exact Or.inr (Or.inr (Or.inr (Or.inr (Or.inl ⟨h1, trivial⟩))))
  · rintro (⟨h1, h2⟩ | ⟨h1, h2⟩ | ⟨h1, h2⟩ | ⟨h1, h2⟩ | ⟨h1, h2⟩ | ⟨h1, h2⟩) <;>
      first
        | exact h1
        | exact absurd h2 (by decide)
  · intro h1
    exact Or.inr (Or.inr (Or.inr (Or.inr (Or.inr ⟨h1, trivial⟩))))

theorem sublist_ite_cons {c : Prop} [Decidable c] {x : String}
    {l r : List String} (h : l.Sublist r) :
    ((if c then [x] else []) ++ l).Sublist (x :: r) := by
  split
  · exact h.cons₂ x
  · exact h.cons x

theorem pythonVersionReasoning_sublist (v : Nat) :
    (pythonVersionReasoning v).Sublist
      [matchReason, dictUnionReason, walrusReason, dataclassReason,
       fstringReason, typeHintReason] := by
  unfold pythonVersionReasoning
  apply sublist_ite_cons
  apply sublist_ite_cons
  apply sublist_ite_cons
  apply sublist_ite_cons
  apply sublist_ite_cons
  split
  · exact List.Sublist.refl _
  · exact List.nil_sublist _

theorem pythonVersionReasoning_nodup (v : Nat) :
    (pythonVersionReasoning v).Nodup :=
  List.Nodup.sublist (pythonVersionReasoning_sublist v) (by decide)

theorem eqFreeName_iff {s : String} : eqFreeName s = true ↔ '=' ∉ s.data := by
  unfold eqFreeName
  rw [List.all_eq_true]
  constructor
  · intro h hm
    have h2 := h '=' hm
    simp at h2
  · intro h c hc
    simp only [Bool.not_eq_true', beq_eq_false_iff_ne, ne_eq]
    intro he
    exact h (he ▸ hc)

theorem eqfree_append_inj (a : List Char) :
    ∀ (b v w : List Char), '=' ∉ a → '=' ∉ b →
      a ++ '=' :: '=' :: v = b ++ '=' :: '=' :: w → a = b := by
  induction a with
  | nil =>
    intro b v w _ hb h
    cases b with
    | nil => rfl
    | cons d bt =>
      injection h with h1 h2
      subst h1
      exact absurd (List.mem_cons_self '=' bt) hb
  | cons c ta ih =>
    intro b v w ha hb h
    cases b with
    | nil =>
      injection h with h1 h2
      subst h1
      exact absurd (List.mem_cons_self '=' ta) ha
    | cons d bt =>
      injection h with h1 h2
      subst h1
      rw [ih bt v w (fun hm => ha (List.mem_cons_of_mem _ hm))
        (fun hm => hb (List.mem_cons_of_mem _ hm)) h2]

theorem entry_name_inj (m m2 v v2 : String) (hm : eqFreeName m = true)
    (hm2 : eqFreeName m2 = true)
    (h : m ++ "==" ++ v = m2 ++ "==" ++ v2) : m = m2 := by
  have h2 := congrArg String.data h
  rw [String.data_append, String.data_append, String.data_append,
    String.data_append] at h2
  have he : ("==" : String).data = ['=', '='] := rfl
  rw [he] at h2
  rw [List.append_assoc, List.append_assoc] at h2
  have h3 : m.data ++ '=' :: '=' :: v.data = m2.data ++ '=' :: '=' :: v2.data := by
    simpa using h2
  exact String.ext (eqfree_append_inj m.data m2.data v.data v2.data
    (eqFreeName_iff.mp hm) (eqFreeName_iff.mp hm2) h3)

theorem is_standard_library_true_iff (env : Env) (m : String) :
    is_standard_library env m = true ↔
      (env.stdlibNames.contains m = true ∨
        ∃ o, env.findSpec m = some o ∧ hasMarker (o.getD "") = false) := by
  unfold is_standard_library
  by_cases hc : env.stdlibNames.contains m
  · rw [if_pos hc]
    exact iff_of_true rfl (Or.inl hc)
  · rw [if_neg hc]
    cases hf : env.findSpec m with
    | none =>
      constructor
      · intro h
        cases h
      · rintro (h | ⟨o, ho, _⟩)
        · exact absurd h hc
        · cases ho
    | some o =>
      constructor
      · intro h
        refine Or.inr ⟨o, rfl, ?_⟩
        simpa using h
      · rintro (h | ⟨o2, ho2, hmk⟩)
        · exact absurd h hc
        · injection ho2 with ho2
          subst ho2
          show (!hasMarker (o.getD "")) = true
          simp [hmk]

theorem predict_ok_elim (env : Env) (p : Project) (g : Bool)
    (spec : EnvironmentSpec)
    (h : predict_python_environment env p g = .ok spec) :
    ∃ v deps base,
      get_python_version p.files = .ok v ∧
      detect_project_dependencies env p.files = .ok deps ∧
      (g = true → base = some none) ∧
      (g = false → base = none) ∧
      spec = ⟨v, pythonVersionReasoning v, deps,
        ⟨pathName p.dir, ["defaults", "conda-forge"],
         [.str ("python>=" ++ verStr v), .str "pip",
          .pipList deps.third_party]⟩, base⟩ := by
  unfold predict_python_environment at h
  cases hv : get_python_version p.files with
  | error e => rw [hv] at h; cases h
  | ok v =>
    rw [hv] at h
    cases hdp : detect_project_dependencies env p.files with
    | error e => rw [hdp] at h; cases h
    | ok deps =>
      rw [hdp] at h
      cases g with
      | true =>
        have hg : generate_base_requirements env p = .ok none := by
          unfold generate_base_requirements
          rw [hv, hdp]
        rw [hg] at h
        injection h with h
        exact ⟨v, deps, some none, rfl, rfl, fun _ => rfl,
          fun hf => Bool.noConfusion hf, h.symm⟩
      | false =>
        injection h with h
        exact ⟨v, deps, none, rfl, rfl, fun ht => Bool.noConfusion ht,
          fun _ => rfl, h.symm⟩

/-! ## Claim theorems -/

/-- Claim C1 (code bug): the claim says the recommended version is the
maximum of the detected features under the ordering
3.5 < 3.6 < 3.7 < 3.8 < 3.9 < 3.10, so a project with both the
dict-union (3.9) feature and a match statement (3.10) should get 3.10.
The source stores versions as floats and the literal `3.10` *is* 3.1
(scaled: 310), which sorts below 3.9 (390): the feature set of the unit
is `{3.9, 3.1}` and `get_python_version` returns 3.9, not 3.10 — and the
3.5 floor is applied only when no feature at all was detected.  This
theorem evaluates the code at the failing input. -/
theorem autodpd_C1_floatmax :
    analyze_python_version (PyContent.decoded (some (Node.other
      [Node.binOp BOp.bitOr (Node.dictDisplay []) (Node.name "d"),
       Node.matchStmt []]))) = .ok [390, 310] ∧
    get_python_version [fileDictOrMatch] = .ok 390 := by decide

/-- Claim C2, counterexample: the claim's decision sequence says an
unresolvable name is unknown regardless of the registry, and a resolved
third-party name missing from the registry is still reported third-party
without a version suffix.  The code instead reports the unresolvable but
installed `numpy` as `numpy==1.26.0` (third-party), and puts the
resolved-to-`site-packages` but uninstalled `mypkg` into `unknown`. -/
theorem autodpd_C2_cex :
    detect_project_dependencies envC2a filesC2a =
      .ok ⟨["numpy==1.26.0"], [], []⟩ ∧
    detect_project_dependencies envC2b filesC2b =
      .ok ⟨[], [], ["mypkg"]⟩ := by decide

/-- Claim C2, amended: a name in the standard-module set, or one that
resolves to a location without a `site-packages`/`dist-packages`
segment, is standard-library; every *other* name (including one whose
resolution fails) is reported `name==version` in third-party when its
lowercased form is a key of the installed registry, and unknown
otherwise (never third-party without a version suffix). -/
theorem autodpd_C2_amended (env : Env) (files : List SrcFile)
    (rep : DependencyReport)
    (hok : detect_project_dependencies env files = .ok rep)
    (m : String) (hm : m ∈ projectImportNames files) :
    (is_standard_library env m = true ↔
      (env.stdlibNames.contains m = true ∨
        ∃ o, env.findSpec m = some o ∧ hasMarker (o.getD "") = false)) ∧
    (is_standard_library env m = true → m ∈ rep.standard_lib) ∧
    (∀ v, is_standard_library env m = false →
      dictLookup (installedPackages env) (lowerStr m) = some v →
      (m ++ "==" ++ v) ∈ rep.third_party) ∧
    (is_standard_library env m = false →
      dictLookup (installedPackages env) (lowerStr m) = none →
      m ∈ rep.unknown) := by
  refine ⟨is_standard_library_true_iff env m, ?_, ?_, ?_⟩
  · intro h
    exact (mem_detect_std env files rep hok m).mpr ⟨hm, h⟩
  · intro v h1 h2
    exact (mem_detect_third env files rep hok (m ++ "==" ++ v)).mpr
      ⟨m, v, hm, h1, h2, rfl⟩
  · intro h1 h2
    exact (mem_detect_unknown env files rep hok m).mpr ⟨hm, h1, h2⟩

/-- Witness for the amended claim C2 at a concrete input: the
unresolvable but installed `numpy` lands in third-party with its
version. -/
theorem autodpd_C2_amended_witness :
    ("numpy" ++ "==" ++ "1.26.0") ∈
      (⟨["numpy==1.26.0"], [], []⟩ : DependencyReport).third_party :=
  (autodpd_C2_amended envC2a filesC2a ⟨["numpy==1.26.0"], [], []⟩
    (by decide) "numpy" (by decide)).2.2.1 "1.26.0" (by decide) (by decide)

/-- Claim C3, counterexample: for a project whose only feature is an
f-string the recommended version is 3.6, and the claim says the
reasoning list is the type-hint line followed by the f-string line
(thresholds at or below 3.6, ascending).  The code produces three lines
— the match-statement line first (because `3.6 >= 3.10` is `3.6 >= 3.1`,
true), then the f-string line, then the type-hint line. -/
theorem autodpd_C3_cex :
    (predict_python_environment env0 projC3 true).map
        (fun s => s.python_version_reasoning) =
      .ok [matchReason, fstringReason, typeHintReason] ∧
    [matchReason, fstringReason, typeHintReason] ≠
      [typeHintReason, fstringReason] := by decide

/-- Claim C3, amended: the reasoning list contains exactly one line for
every threshold whose *numeric* value is at or below the recommended
version (the 3.10 threshold's numeric value being 3.1), emitted in the
fixed check order 3.10, 3.9, 3.8, 3.7, 3.6, 3.5 — descending except
that the 3.10 line comes first whenever present. -/
theorem autodpd_C3_amended (env : Env) (p : Project) (g : Bool)
    (spec : EnvironmentSpec)
    (h : predict_python_environment env p g = .ok spec) :
    spec.python_version_reasoning.Nodup ∧
    spec.python_version_reasoning.Sublist
      [matchReason, dictUnionReason, walrusReason, dataclassReason,
       fstringReason, typeHintReason] ∧
    ∀ t line, (t, line) ∈ reasonTable →
      (line ∈ spec.python_version_reasoning ↔
        t ≤ spec.recommended_python_version) := by
  obtain ⟨v, deps, base, hv, hdp, hb1, hb2, rfl⟩ :=
    predict_ok_elim env p g spec h
  exact ⟨pythonVersionReasoning_nodup v, pythonVersionReasoning_sublist v,
    fun t line ht => mem_pythonVersionReasoning v t line ht⟩

/-- Witness for the amended claim C3 at a concrete input: the reasoning
list built for `projC3` has no duplicate lines. -/
theorem autodpd_C3_amended_witness : spec3.python_version_reasoning.Nodup :=
  (autodpd_C3_amended env0 projC3 true spec3 (by decide)).1

/-- Claim C4 (confirmed): the three partitions of the report are
pairwise disjoint at the module-name level and together cover exactly
the top-level import names of the project — a third-party entry
`m==v` standing for the name `m`.  The hypothesis that import names
contain no `'='` holds for every name a genuine import statement can
produce (Python identifiers). -/
theorem autodpd_C4_partition (env : Env) (files : List SrcFile)
    (rep : DependencyReport)
    (hok : detect_project_dependencies env files = .ok rep)
    (hfree : ∀ m ∈ projectImportNames files, eqFreeName m = true) :
    (∀ m, eqFreeName m = true →
      (m ∈ projectImportNames files ↔
        m ∈ rep.standard_lib ∨ m ∈ rep.unknown ∨
          ∃ v, (m ++ "==" ++ v) ∈ rep.third_party)) ∧
    (∀ m, ¬(m ∈ rep.standard_lib ∧ m ∈ rep.unknown)) ∧
    (∀ m v, m ∈ rep.standard_lib → (m ++ "==" ++ v) ∉ rep.third_party) ∧
    (∀ m v, m ∈ rep.unknown → (m ++ "==" ++ v) ∉ rep.third_party) := by
  refine ⟨?_, ?_, ?_, ?_⟩
  · intro m hmfree
    constructor
    · intro hm
      by_cases hstd : is_standard_library env m
      · exact Or.inl ((mem_detect_std env files rep hok m).mpr ⟨hm, hstd⟩)
      · have hstdf : is_standard_library env m = false :=
          Bool.eq_false_iff.mpr hstd
        cases hlk : dictLookup (installedPackages env) (lowerStr m) with
        | some v =>
          exact Or.inr (Or.inr ⟨v, (mem_detect_third env files rep hok
            (m ++ "==" ++ v)).mpr ⟨m, v, hm, hstdf, hlk, rfl⟩⟩)
        | none =>
          exact Or.inr (Or.inl ((mem_detect_unknown env files rep hok m).mpr
            ⟨hm, hstdf, hlk⟩))
    · rintro (h | h | ⟨v, h⟩)
      · exact ((mem_detect_std env files rep hok m).mp h).1
      · exact ((mem_detect_unknown env files rep hok m).mp h).1
      · obtain ⟨m2, v2, hm2, hstd2, hlk2, heq⟩ :=
          (mem_detect_third env files rep hok (m ++ "==" ++ v)).mp h
        have hEq := entry_name_inj m m2 v v2 hmfree (hfree m2 hm2) heq
        rw [hEq]
        exact hm2
  · rintro m ⟨h1, h2⟩
    have a1 := (mem_detect_std env files rep hok m).mp h1
    have a2 := (mem_detect_unknown env files rep hok m).mp h2
    rw [a1.2] at a2
    exact Bool.noConfusion a2.2.1
  · intro m v h1 h3
    have a1 := (mem_detect_std env files rep hok m).mp h1
    obtain ⟨m2, v2, hm2, hstd2, hlk2, heq⟩ :=
      (mem_detect_third env files rep hok (m ++ "==" ++ v)).mp h3
    have hEq := entry_name_inj m m2 v v2 (hfree m a1.1) (hfree m2 hm2) heq
    rw [← hEq] at hstd2
    rw [a1.2] at hstd2
    exact Bool.noConfusion hstd2
  · intro m v h1 h3
    have a1 := (mem_detect_unknown env files rep hok m).mp h1
    obtain ⟨m2, v2, hm2, hstd2, hlk2, heq⟩ :=
      (mem_detect_third env files rep hok (m ++ "==" ++ v)).mp h3
    have hEq := entry_name_inj m m2 v v2 (hfree m a1.1) (hfree m2 hm2) heq
    rw [← hEq] at hlk2
    rw [a1.2.2] at hlk2
    exact Option.noConfusion hlk2

/-- Witness for claim C4 at a concrete project (`os`, `numpy.linalg`,
`customlib.sub` against `envW`): the name `numpy` is covered by the
partition union. -/
theorem autodpd_C4_partition_witness :
    "numpy" ∈ projectImportNames filesW ↔
      "numpy" ∈ repW.standard_lib ∨ "numpy" ∈ repW.unknown ∨
        ∃ v, ("numpy" ++ "==" ++ v) ∈ repW.third_party :=
  (autodpd_C4_partition envW filesW repW (by decide) (by decide)).1
    "numpy" (by decide)

/-- Claim C5 (code bug): the claim says the recommended version never
decreases when the detected feature set grows.  A project with no
features at all gets the 3.5 default, while a project whose feature set
is the strict superset `{3.10}` gets 3.1 (the numeric value of the
float literal `3.10`), *below* 3.5: the floor is not applied once any
feature exists, and 3.10 sorts below every other threshold. -/
theorem autodpd_C5_nonmonotone :
    gatherVersions [] [] = .ok ([] : List Nat) ∧
    gatherVersions [fileMatch] [] = .ok [310] ∧
    get_python_version [] = .ok 350 ∧
    get_python_version [fileMatch] = .ok 310 ∧
    310 < 350 := by decide

/-- Claim C6, counterexample: the handlers only catch `SyntaxError`,
`JSONDecodeError` and `KeyError`, so a `.py` unit whose bytes fail
UTF-8 decoding (`UnicodeDecodeError`) and a notebook whose content is
valid JSON of the wrong shape, e.g. `[]` (`TypeError` at
`notebook['cells']`), both make `detect_project_dependencies` and
`get_python_version` raise, contradicting the claim that every per-unit
condition is recovered. -/
theorem autodpd_C6_cex :
    detect_project_dependencies env0 [SrcFile.py PyContent.undecodable] =
      .error .unicodeDecode ∧
    get_python_version [SrcFile.py PyContent.undecodable] =
      .error .unicodeDecode ∧
    detect_project_dependencies env0 [SrcFile.ipynb NbContent.wrongShape] =
      .error .typeError ∧
    get_python_version [SrcFile.ipynb NbContent.wrongShape] =
      .error .typeError := by decide

/-- Claim C6, amended: a per-unit failure is recovered exactly when it
raises one of the caught exception classes — a script syntax error,
notebook text that is not valid JSON (`JSONDecodeError`), a notebook
JSON object missing a required key (`KeyError`), or a notebook whose
combined code cells fail to parse (`SyntaxError`).  Such a unit
contributes empty import and feature sets and both analyses behave
exactly as if it were absent.  A unit whose bytes fail UTF-8 decoding
(`UnicodeDecodeError`) and a notebook whose content is valid JSON of
the wrong shape (`TypeError`) propagate their exceptions to the
caller. -/
theorem autodpd_C6_amended (env : Env) (l1 l2 : List SrcFile) (u : SrcFile)
    (hu : recoverable u = true) :
    unitImports u = .ok [] ∧ unitVersions u = .ok [] ∧
    detect_project_dependencies env (l1 ++ u :: l2) =
      detect_project_dependencies env (l1 ++ l2) ∧
    get_python_version (l1 ++ u :: l2) = get_python_version (l1 ++ l2) := by
  have hi : unitImports u = .ok [] := by
    cases u with
    | py c =>
      cases c with
      | decoded t =>
        cases t with
        | none => rfl
        | some tr => simp [recoverable] at hu
      | undecodable => simp [recoverable] at hu
    | ipynb c =>
      cases c with
      | undecodable => simp [recoverable] at hu
      | invalidJson => rfl
      | missingKey => rfl
      | wrongShape => simp [recoverable] at hu
      | cellsParsed t =>
        cases t with
        | none => rfl
        | some tr => simp [recoverable] at hu
    | otherFile => simp [recoverable] at hu
  have hw : unitVersions u = .ok [] := by
    cases u with
    | py c =>
      cases c with
      | decoded t =>
        cases t with
        | none => rfl
        | some tr => simp [recoverable] at hu
      | undecodable => simp [recoverable] at hu
    | ipynb c =>
      cases c with
      | undecodable => simp [recoverable] at hu
      | invalidJson => rfl
      | missingKey => rfl
      | wrongShape => simp [recoverable] at hu
      | cellsParsed t =>
        cases t with
        | none => rfl
        | some tr => simp [recoverable] at hu
    | otherFile => simp [recoverable] at hu
  exact ⟨hi, hw, detect_skip env u hi l1 l2,
    get_python_version_skip u hw l1 l2⟩

/-- Witness for the amended claim C6 at a concrete input: inserting a
syntax-error script changes nothing. -/
theorem autodpd_C6_amended_witness :
    detect_project_dependencies env0
        [fileFstring, SrcFile.py (PyContent.decoded none)] =
      detect_project_dependencies env0 [fileFstring] :=
  (autodpd_C6_amended env0 [fileFstring] []
    (SrcFile.py (PyContent.decoded none)) (by decide)).2.2.1

/-- Claim C7 (confirmed): a notebook unit whose content is not valid
JSON, or whose JSON lacks the `cells` key, contributes empty import and
feature sets, and the whole run behaves exactly as if the unit were
absent — in particular it completes for all other units whenever it
would have without the bad notebook. -/
theorem autodpd_C7_notebook_skip (env : Env) (l1 l2 : List SrcFile)
    (c : NbContent)
    (hc : c = NbContent.invalidJson ∨ c = NbContent.missingKey) :
    analyze_notebook_imports c = .ok [] ∧
    analyze_python_version_notebook c = .ok [] ∧
    detect_project_dependencies env (l1 ++ SrcFile.ipynb c :: l2) =
      detect_project_dependencies env (l1 ++ l2) ∧
    get_python_version (l1 ++ SrcFile.ipynb c :: l2) =
      get_python_version (l1 ++ l2) := by
  rcases hc with rfl | rfl
  · exact ⟨rfl, rfl,
      detect_skip env (SrcFile.ipynb NbContent.invalidJson) rfl l1 l2,
      get_python_version_skip (SrcFile.ipynb NbContent.invalidJson) rfl l1 l2⟩
  · exact ⟨rfl, rfl,
      detect_skip env (SrcFile.ipynb NbContent.missingKey) rfl l1 l2,
      get_python_version_skip (SrcFile.ipynb NbContent.missingKey) rfl l1 l2⟩

/-- Witness for claim C7 at a concrete input: a cells-less notebook
contributes nothing. -/
theorem autodpd_C7_notebook_skip_witness :
    detect_project_dependencies env0
        [fileFstring, SrcFile.ipynb NbContent.missingKey] =
      detect_project_dependencies env0 [fileFstring] :=
  (autodpd_C7_notebook_skip env0 [fileFstring] [] NbContent.missingKey
    (Or.inr rfl)).2.2.1

/-- Claim C8 (confirmed): the manifest skeleton has the root
directory's final path component as its name, the fixed channel list
`['defaults', 'conda-forge']`, and exactly the runtime floor pin, the
literal `pip` entry, and the nested pip list holding the third-party
partition. -/
theorem autodpd_C8_manifest (env : Env) (p : Project) (g : Bool)
    (spec : EnvironmentSpec)
    (h : predict_python_environment env p g = .ok spec) :
    spec.conda_environment_yaml.name = pathName p.dir ∧
    spec.conda_environment_yaml.channels = ["defaults", "conda-forge"] ∧
    spec.conda_environment_yaml.dependencies =
      [.str ("python>=" ++ verStr spec.recommended_python_version),
       .str "pip", .pipList spec.dependencies.third_party] := by
  obtain ⟨v, deps, base, hv, hdp, hb1, hb2, rfl⟩ :=
    predict_ok_elim env p g spec h
  exact ⟨rfl, rfl, rfl⟩

/-- Witness for claim C8 at a concrete input: the manifest built for
`projC9` (directory `home/demo`). -/
theorem autodpd_C8_manifest_witness :
    spec9.conda_environment_yaml.name = pathName projC9.dir ∧
    spec9.conda_environment_yaml.channels = ["defaults", "conda-forge"] ∧
    spec9.conda_environment_yaml.dependencies =
      [.str ("python>=" ++ verStr spec9.recommended_python_version),
       .str "pip", .pipList spec9.dependencies.third_party] :=
  autodpd_C8_manifest env0 projC9 true spec9 (by decide)

/-- Claim C9 (confirmed): version thresholds are plain decimal numbers,
so the `3.10` threshold denotes 3.1 (scaled: `310`) and sorts strictly
below 3.9 (`390`); a project whose only feature is a match statement
gets recommended version 3.1 and the runtime pin `python>=3.1`. -/
theorem autodpd_C9_float_encoding :
    get_python_version projC9.files = .ok 310 ∧ 310 < 390 ∧
    verStr 310 = "3.1" ∧
    (predict_python_environment env0 projC9 true).map
        (fun s => s.conda_environment_yaml.dependencies) =
      .ok [.str "python>=3.1", .str "pip", .pipList []] := by decide

/-- Claim C10 (confirmed): `generate_base_requirements` runs the two
analyses, then its body ends at a comment — it returns `None` and
writes nothing — so `predict_python_environment` with
`generate_base_reqs=True` stores `None` under `base_requirements`. -/
theorem autodpd_C10_base_reqs (env : Env) (p : Project)
    (r : Option (List String)) (spec : EnvironmentSpec)
    (h1 : generate_base_requirements env p = .ok r)
    (h2 : predict_python_environment env p true = .ok spec) :
    r = none ∧ spec.base_requirements = some none := by
  constructor
  · unfold generate_base_requirements at h1
    cases hv : get_python_version p.files with
    | error e => rw [hv] at h1; cases h1
    | ok v =>
      rw [hv] at h1
      cases hdp : detect_project_dependencies env p.files with
      | error e => rw [hdp] at h1; cases h1
      | ok deps =>
        rw [hdp] at h1
        injection h1 with h1
        exact h1.symm
  · obtain ⟨v, deps, base, hv, hdp, hbt, hbf, rfl⟩ :=
      predict_ok_elim env p true spec h2
    exact hbt rfl

/-- Witness for claim C10 at a concrete input: the empty project. -/
theorem autodpd_C10_base_reqs_witness :
    (none : Option (List String)) = none ∧
      specEmpty.base_requirements = some none :=
  autodpd_C10_base_reqs env0 pEmpty none specEmpty (by decide) (by decide)
